import Mathlib

/-!
Shallow embedding of the café menu backend (`src/backend/server.py`).

The Mongo collections `menu_items` and `otp_verifications` are modelled as
Lean lists of records, in insertion order; the Mongo primitives used by the
server (`find_one`, `insert_one`, `update_one`, `delete_one`, `delete_many`,
`find(...).to_list(1000)`) become the corresponding list operations
(`List.find?`, append, first-match replace, first-match delete, filter,
`List.take 1000`).  Timestamps are seconds as `Nat`; prices (`float` in the
source) are `Rat`.  Each route handler becomes a function from the database
state (plus the request data and the values the handler draws from its
environment: the generated OTP, the fresh uuid, the current clock, whether
the SendGrid call succeeds) to the new database state paired with
`Except HTTPException` of the response payload, mirroring `raise
HTTPException(...)` in the source.
-/

set_option autoImplicit false

namespace CafeMenu

/-- Mirror of FastAPI's `HTTPException`: a status code and a detail string. -/
structure HTTPException where
  status_code : Nat
  detail : String
  deriving Repr, DecidableEq

/-- `MenuItem` model (server.py lines 46-57). `id` and `created_at` are
assigned at construction; `price` is `float` in the source, `Rat` here. -/
structure MenuItem where
  id : String
  category : String
  name : String
  price : Rat
  description : String
  is_special : Bool
  available : Bool
  image_url : String
  created_at : Nat
  deriving Repr, DecidableEq

/-- `MenuItemCreate` model (server.py lines 59-66): the request body of the
create route; optional fields carry their pydantic defaults. -/
structure MenuItemCreate where
  category : String
  name : String
  price : Rat
  description : String := ""
  is_special : Bool := false
  available : Bool := true
  image_url : String := ""
  deriving Repr, DecidableEq

/-- `MenuItemUpdate` model (server.py lines 68-75): every field optional,
`none` standing for the Python `None` default. -/
structure MenuItemUpdate where
  category : Option String := none
  name : Option String := none
  price : Option Rat := none
  description : Option String := none
  is_special : Option Bool := none
  available : Option Bool := none
  image_url : Option String := none
  deriving Repr, DecidableEq

/-- `OTPVerification` model (server.py lines 84-90), as stored in the
`otp_verifications` collection. -/
structure OTPVerification where
  email : String
  otp : String
  created_at : Nat
  expires_at : Nat
  deriving Repr, DecidableEq

/-- The two persisted collections, in insertion order. -/
structure DB where
  menu_items : List MenuItem
  otp_verifications : List OTPVerification
  deriving Repr, DecidableEq

/-- Mongo `update_one`: apply `f` to the first element satisfying `p`,
leave everything else untouched. -/
def updateOne {α : Type} (p : α → Bool) (f : α → α) : List α → List α
  | [] => []
  | x :: xs => if p x then f x :: xs else x :: updateOne p f xs

/-- Mongo `delete_one`: drop the first element satisfying `p`. -/
def deleteOne {α : Type} (p : α → Bool) : List α → List α
  | [] => []
  | x :: xs => if p x then xs else x :: deleteOne p xs

/-- Mongo `delete_many {"email": e}` on `otp_verifications`: keep only the
documents whose `email` differs from `e`. -/
def deleteManyEmail (e : String) (l : List OTPVerification) : List OTPVerification :=
  l.filter (fun o => !(o.email == e))

/-! ### Public menu routes (server.py lines 212-239) -/

/-- `GET /menu` (lines 212-222): available items, capped by `.to_list(1000)`. -/
def get_menu (db : DB) : List MenuItem :=
  (db.menu_items.filter (fun m => m.available)).take 1000

/-- `GET /menu/specials` (lines 230-239): special *and* available items,
capped by `.to_list(1000)`. -/
def get_specials (db : DB) : List MenuItem :=
  (db.menu_items.filter (fun m => m.is_special && m.available)).take 1000

/-! ### Admin menu routes (server.py lines 243-322) -/

/-- `GET /admin/menu` (lines 243-252): every item, capped by `.to_list(1000)`. -/
def get_all_menu_items (db : DB) : List MenuItem :=
  db.menu_items.take 1000

/-- `POST /admin/menu` (lines 254-264).  `MenuItem(**item.model_dump())`
draws a fresh uuid and the current clock from the environment; here they are
the extra arguments `newId` and `now`.  The handler performs no validation
of the field values: it builds the item, inserts it, and returns it. -/
def create_menu_item (db : DB) (item : MenuItemCreate) (newId : String) (now : Nat) :
    DB × Except HTTPException MenuItem :=
  let menu_item : MenuItem :=
    { id := newId, category := item.category, name := item.name, price := item.price,
      description := item.description, is_special := item.is_special,
      available := item.available, image_url := item.image_url, created_at := now }
  ({ db with menu_items := db.menu_items ++ [menu_item] }, .ok menu_item)

/-- The dict comprehension of server.py line 275: the `$set` patch keeps
exactly the fields of the payload that are not `None`. -/
def applyUpdate (u : MenuItemUpdate) (m : MenuItem) : MenuItem :=
  { m with
    category := u.category.getD m.category,
    name := u.name.getD m.name,
    price := u.price.getD m.price,
    description := u.description.getD m.description,
    is_special := u.is_special.getD m.is_special,
    available := u.available.getD m.available,
    image_url := u.image_url.getD m.image_url }

/-- `if update_data:` (line 277): the patch dict is empty exactly when every
payload field is `None`. -/
def MenuItemUpdate.isEmptyPatch (u : MenuItemUpdate) : Bool :=
  u.category.isNone && u.name.isNone && u.price.isNone && u.description.isNone &&
    u.is_special.isNone && u.available.isNone && u.image_url.isNone

/-- `PUT /admin/menu/{item_id}` (lines 266-286): 404 when the id is absent;
otherwise `$set` the non-`None` fields on the matched document, re-read it
and return it.  The re-read cannot miss (the id is never patched); the
unreachable branch mirrors the `AttributeError` the Python would raise. -/
def update_menu_item (db : DB) (item_id : String) (item : MenuItemUpdate) :
    DB × Except HTTPException MenuItem :=
  match db.menu_items.find? (fun m => m.id == item_id) with
  | none => (db, .error ⟨404, "Menu item not found"⟩)
  | some _ =>
    let items :=
      if item.isEmptyPatch then db.menu_items
      else updateOne (fun m => m.id == item_id) (applyUpdate item) db.menu_items
    match items.find? (fun m => m.id == item_id) with
    | none => ({ db with menu_items := items }, .error ⟨500, "Internal Server Error"⟩)
    | some updated => ({ db with menu_items := items }, .ok updated)

/-- `DELETE /admin/menu/{item_id}` (lines 288-296): 404 when nothing was
deleted, success otherwise. -/
def delete_menu_item (db : DB) (item_id : String) :
    DB × Except HTTPException String :=
  if (db.menu_items.find? (fun m => m.id == item_id)).isSome then
    ({ db with menu_items := deleteOne (fun m => m.id == item_id) db.menu_items },
     .ok "Menu item deleted successfully")
  else (db, .error ⟨404, "Menu item not found"⟩)

/-- The `$set {"is_special": b}` patch of the toggle-special route. -/
def setSpecial (b : Bool) (m : MenuItem) : MenuItem := { m with is_special := b }

/-- The `$set {"available": b}` patch of the toggle-available route. -/
def setAvailable (b : Bool) (m : MenuItem) : MenuItem := { m with available := b }

/-- `PUT /admin/menu/{item_id}/toggle-special` (lines 298-309): 404 when the
id is absent; otherwise `$set is_special` to the negation of the fetched
document's value and return that new value. -/
def toggle_special (db : DB) (item_id : String) :
    DB × Except HTTPException Bool :=
  match db.menu_items.find? (fun m => m.id == item_id) with
  | none => (db, .error ⟨404, "Menu item not found"⟩)
  | some existing =>
    let new_status := !existing.is_special
    let items := updateOne (fun m => m.id == item_id) (setSpecial new_status) db.menu_items
    ({ db with menu_items := items }, .ok new_status)

/-- `PUT /admin/menu/{item_id}/toggle-available` (lines 311-322): same shape
as `toggle_special` for the `available` field. -/
def toggle_available (db : DB) (item_id : String) :
    DB × Except HTTPException Bool :=
  match db.menu_items.find? (fun m => m.id == item_id) with
  | none => (db, .error ⟨404, "Menu item not found"⟩)
  | some existing =>
    let new_status := !existing.available
    let items := updateOne (fun m => m.id == item_id) (setAvailable new_status) db.menu_items
    ({ db with menu_items := items }, .ok new_status)

/-! ### Session tokens (server.py lines 125-148)

The PyJWT collaborator is idealised symbolically: an HS256 signature is a
perfect MAC, represented as the (secret, payload) pair itself, so a
signature verifies exactly when it was produced over this payload with this
secret.  `jwt.decode` checks the signature before the registered claims, so
a bad signature yields `InvalidTokenError` (401 "Invalid token") and a valid
signature with a past `exp` yields `ExpiredSignatureError`
(401 "Token has expired"). -/

/-- The claims `create_jwt_token` puts in the token (server.py lines 127-130). -/
structure JWTPayload where
  email : String
  exp : Nat
  deriving Repr, DecidableEq

/-- Idealised HS256 MAC over a payload. -/
def signHS256 (secret : String) (p : JWTPayload) : String × JWTPayload :=
  (secret, p)

/-- A token as the verifier sees it: a payload plus the signature bytes.
Tampered or wrong-secret tokens are those whose `sig` is not
`signHS256 secret payload`. -/
structure JWTToken where
  payload : JWTPayload
  sig : String × JWTPayload
  deriving Repr, DecidableEq

/-- `create_jwt_token` (server.py lines 125-131): payload
`{email, exp = now + 7 days}` signed with the server secret. -/
def create_jwt_token (secret : String) (email : String) (now : Nat) : JWTToken :=
  let payload : JWTPayload := { email := email, exp := now + 7 * 24 * 60 * 60 }
  { payload := payload, sig := signHS256 secret payload }

/-- `verify_jwt_token` (server.py lines 133-141): signature check first
(`InvalidTokenError` → 401 "Invalid token"), then expiry
(`ExpiredSignatureError` → 401 "Token has expired"), else the email. -/
def verify_jwt_token (secret : String) (token : JWTToken) (now : Nat) :
    Except HTTPException String :=
  if token.sig ≠ signHS256 secret token.payload then
    .error ⟨401, "Invalid token"⟩
  else if token.payload.exp < now then
    .error ⟨401, "Token has expired"⟩
  else
    .ok token.payload.email

/-- `get_current_admin` (server.py lines 143-148): verify the bearer token,
then 403 unless the embedded email is the configured admin. -/
def get_current_admin (secret : String) (ADMIN_EMAIL : String) (token : JWTToken)
    (now : Nat) : Except HTTPException String :=
  match verify_jwt_token secret token now with
  | .error e => .error e
  | .ok email =>
    if email ≠ ADMIN_EMAIL then .error ⟨403, "Not authorized"⟩ else .ok email

/-! ### Auth routes (server.py lines 152-208)

`send_otp` draws from its environment the generated six-digit code `otp`,
the current clock `now` (seconds), and whether the SendGrid dispatch
succeeds (`emailOk`; on failure `send_otp_email`, lines 98-123, raises
HTTPException 500 "Failed to send OTP email").  Ten minutes is 600 seconds,
so `expires_at = now + 600`. -/

/-- `POST /auth/send-otp` (server.py lines 152-178). -/
def send_otp (ADMIN_EMAIL : String) (db : DB) (email : String) (otp : String)
    (now : Nat) (emailOk : Bool) : DB × Except HTTPException String :=
  if email ≠ ADMIN_EMAIL then (db, .error ⟨403, "Email not authorized"⟩)
  else
    let otp_doc : OTPVerification :=
      { email := email, otp := otp, created_at := now, expires_at := now + 10 * 60 }
    let db' : DB :=
      { db with otp_verifications := deleteManyEmail email db.otp_verifications ++ [otp_doc] }
    if emailOk then (db', .ok "OTP sent successfully")
    else (db', .error ⟨500, "Failed to send OTP email"⟩)

/-- `POST /auth/verify-otp` (server.py lines 180-208): 403 on a non-admin
email; 404 when no document is stored; expired documents are deleted and
rejected with 400; a code mismatch is rejected with 400 leaving the store
untouched; on a match the document is deleted and a fresh JWT returned. -/
def verify_otp (secret : String) (ADMIN_EMAIL : String) (db : DB) (email : String)
    (otp : String) (now : Nat) : DB × Except HTTPException (JWTToken × String) :=
  if email ≠ ADMIN_EMAIL then (db, .error ⟨403, "Email not authorized"⟩)
  else
    match db.otp_verifications.find? (fun o => o.email == email) with
    | none => (db, .error ⟨404, "OTP not found or expired"⟩)
    | some otp_doc =>
      if otp_doc.expires_at < now then
        ({ db with otp_verifications :=
            deleteOne (fun o => o.email == email) db.otp_verifications },
         .error ⟨400, "OTP has expired"⟩)
      else if otp_doc.otp ≠ otp then
        (db, .error ⟨400, "Invalid OTP"⟩)
      else
        ({ db with otp_verifications :=
            deleteOne (fun o => o.email == email) db.otp_verifications },
         .ok (create_jwt_token secret email now, email))

/-! ### Concrete sample data, used to instantiate the theorems -/

/-- The first seeded item of the catalog (server.py line 336), with a fixed
id and clock. -/
def sweetLassi : MenuItem :=
  { id := "i1", category := "Lassi", name := "Sweet Lassi", price := 40,
    description := "Refreshing sweet lassi made from curd and sugar",
    is_special := false, available := true, image_url := "", created_at := 0 }

/-- A store holding exactly one menu item. -/
def menuDB : DB := { menu_items := [sweetLassi], otp_verifications := [] }

/-- A challenge for the admin issued at time 0, expiring at time 600. -/
def adminChallenge : OTPVerification :=
  { email := "admin@cafe.com", otp := "123456", created_at := 0, expires_at := 600 }

/-- A store holding one OTP challenge for the admin, issued at time 0. -/
def authDB : DB := { menu_items := [], otp_verifications := [adminChallenge] }

/-- A store whose catalog has 1001 identical items. -/
def bigDB : DB :=
  { menu_items := List.replicate 1001 sweetLassi, otp_verifications := [] }

/-! ### Helper lemmas about the modelled Mongo primitives -/

theorem find?_updateOne {α : Type} (p : α → Bool) (f : α → α) (l : List α) (m : α)
    (hf : l.find? p = some m) (hp : p (f m) = true) :
    (updateOne p f l).find? p = some (f m) := by
  induction l with
  | nil => simp at hf
  | cons x xs ih =>
    by_cases hx : p x
    · rw [List.find?_cons_of_pos _ hx] at hf
      cases hf
      simp [updateOne, hx, List.find?_cons_of_pos _ hp]
    · rw [List.find?_cons_of_neg _ hx] at hf
      simp [updateOne, hx, List.find?_cons_of_neg _ hx, ih hf]

theorem updateOne_updateOne {α : Type} (p : α → Bool) (f g : α → α) (l : List α) (m : α)
    (hf : l.find? p = some m) (hpf : p (f m) = true) (hg : g (f m) = m) :
    updateOne p g (updateOne p f l) = l := by
  induction l with
  | nil => simp at hf
  | cons x xs ih =>
    by_cases hx : p x
    · rw [List.find?_cons_of_pos _ hx] at hf
      cases hf
      simp [updateOne, hx, hpf, hg]
    · rw [List.find?_cons_of_neg _ hx] at hf
      simp [updateOne, hx, ih hf]

theorem updateOne_of_id {α : Type} (p : α → Bool) (f : α → α) (l : List α)
    (h : ∀ x, f x = x) : updateOne p f l = l := by
  induction l with
  | nil => rfl
  | cons x xs ih => by_cases hx : p x <;> simp [updateOne, hx, h, ih]

theorem find?_append_of_none {α : Type} (p : α → Bool) (l₁ l₂ : List α)
    (h : l₁.find? p = none) : (l₁ ++ l₂).find? p = l₂.find? p := by
  induction l₁ with
  | nil => rfl
  | cons x xs ih =>
    by_cases hx : p x
    · rw [List.find?_cons_of_pos _ hx] at h; simp at h
    · rw [List.find?_cons_of_neg _ hx] at h
      simp [List.find?_cons_of_neg _ hx, ih h]

theorem find?_filter_not {α : Type} (p : α → Bool) (l : List α) :
    (l.filter fun x => !p x).find? p = none := by
  induction l with
  | nil => rfl
  | cons x xs ih =>
    by_cases hx : p x <;> simp [List.filter_cons, hx, ih, List.find?_cons_of_neg]

theorem filter_filter_not {α : Type} (p : α → Bool) (l : List α) :
    (l.filter fun x => !p x).filter p = [] := by
  induction l with
  | nil => rfl
  | cons x xs ih => by_cases hx : p x <;> simp [List.filter_cons, hx, ih]

theorem find?_eq_none_of_filter_len {α : Type} (p : α → Bool) (l : List α)
    (h : (l.filter p).length = 0) : l.find? p = none := by
  rw [List.length_eq_zero] at h
  exact List.find?_eq_none.mpr fun x hx => by
    intro hpx
    have : x ∈ l.filter p := List.mem_filter.mpr ⟨hx, hpx⟩
    simp [h] at this

theorem deleteOne_find?_none {α : Type} (p : α → Bool) (l : List α)
    (h : (l.filter p).length ≤ 1) : (deleteOne p l).find? p = none := by
  induction l with
  | nil => rfl
  | cons x xs ih =>
    by_cases hx : p x
    · have hlen : (xs.filter p).length = 0 := by
        have h' := h
        rw [List.filter_cons, if_pos hx] at h'
        simp only [List.length_cons] at h'
        omega
      simp [deleteOne, hx, find?_eq_none_of_filter_len p xs hlen]
    · have hlen : (xs.filter p).length ≤ 1 := by
        simpa [List.filter_cons, hx] using h
      simp [deleteOne, hx, List.find?_cons_of_neg _ hx, ih hlen]

theorem applyUpdate_of_emptyPatch (u : MenuItemUpdate) (h : u.isEmptyPatch = true)
    (m : MenuItem) : applyUpdate u m = m := by
  unfold MenuItemUpdate.isEmptyPatch at h
  simp only [Bool.and_eq_true, Option.isNone_iff_eq_none] at h
  obtain ⟨⟨⟨⟨⟨⟨h1, h2⟩, h3⟩, h4⟩, h5⟩, h6⟩, h7⟩ := h
  simp [applyUpdate, h1, h2, h3, h4, h5, h6, h7]

theorem update_menu_item_found (db : DB) (item_id : String) (u : MenuItemUpdate)
    (m : MenuItem) (hfind : db.menu_items.find? (fun x => x.id == item_id) = some m) :
    update_menu_item db item_id u =
      ({ db with menu_items :=
          updateOne (fun x => x.id == item_id) (applyUpdate u) db.menu_items },
       .ok (applyUpdate u m)) := by
  have hpm := List.find?_some hfind
  by_cases hemp : u.isEmptyPatch
  · have hid : ∀ x, applyUpdate u x = x := applyUpdate_of_emptyPatch u hemp
    have hupd : updateOne (fun x : MenuItem => x.id == item_id) (applyUpdate u)
        db.menu_items = db.menu_items := updateOne_of_id _ _ _ hid
    simp [update_menu_item, hfind, hemp, hupd, hid m]
  · have hp2 : (applyUpdate u m).id == item_id := hpm
    have hf2 := find?_updateOne (fun x : MenuItem => x.id == item_id) (applyUpdate u)
      db.menu_items m hfind hp2
    simp [update_menu_item, hfind, hemp, hf2]

theorem toggle_special_found (db : DB) (item_id : String) (m : MenuItem)
    (hfind : db.menu_items.find? (fun x => x.id == item_id) = some m) :
    toggle_special db item_id =
      ({ db with menu_items :=
          updateOne (fun x => x.id == item_id) (setSpecial (!m.is_special)) db.menu_items },
       .ok (!m.is_special)) := by
  simp [toggle_special, hfind]

theorem toggle_available_found (db : DB) (item_id : String) (m : MenuItem)
    (hfind : db.menu_items.find? (fun x => x.id == item_id) = some m) :
    toggle_available db item_id =
      ({ db with menu_items :=
          updateOne (fun x => x.id == item_id) (setAvailable (!m.available)) db.menu_items },
       .ok (!m.available)) := by
  simp [toggle_available, hfind]

theorem setSpecial_setSpecial_self (m : MenuItem) :
    setSpecial (!(setSpecial (!m.is_special) m).is_special) (setSpecial (!m.is_special) m)
      = m := by
  cases m; simp [setSpecial]

theorem setAvailable_setAvailable_self (m : MenuItem) :
    setAvailable (!(setAvailable (!m.available) m).available) (setAvailable (!m.available) m)
      = m := by
  cases m; simp [setAvailable]

theorem toggle_special_twice (db : DB) (item_id : String) (m : MenuItem)
    (hfind : db.menu_items.find? (fun x => x.id == item_id) = some m) :
    (toggle_special (toggle_special db item_id).1 item_id).1 = db ∧
    (toggle_special (toggle_special db item_id).1 item_id).2 = .ok m.is_special := by
  have hpm := List.find?_some hfind
  have hp1 : (setSpecial (!m.is_special) m).id == item_id := hpm
  have hf1 := find?_updateOne (fun x : MenuItem => x.id == item_id)
    (setSpecial (!m.is_special)) db.menu_items m hfind hp1
  rw [toggle_special_found db item_id m hfind]
  rw [toggle_special_found _ item_id _ hf1]
  have hcollapse := updateOne_updateOne (fun x : MenuItem => x.id == item_id)
    (setSpecial (!m.is_special)) (setSpecial (!(setSpecial (!m.is_special) m).is_special))
    db.menu_items m hfind hp1 (setSpecial_setSpecial_self m)
  constructor
  · simp only [hcollapse]
  · simp [setSpecial]

theorem toggle_available_twice (db : DB) (item_id : String) (m : MenuItem)
    (hfind : db.menu_items.find? (fun x => x.id == item_id) = some m) :
    (toggle_available (toggle_available db item_id).1 item_id).1 = db ∧
    (toggle_available (toggle_available db item_id).1 item_id).2 = .ok m.available := by
  have hpm := List.find?_some hfind
  have hp1 : (setAvailable (!m.available) m).id == item_id := hpm
  have hf1 := find?_updateOne (fun x : MenuItem => x.id == item_id)
    (setAvailable (!m.available)) db.menu_items m hfind hp1
  rw [toggle_available_found db item_id m hfind]
  rw [toggle_available_found _ item_id _ hf1]
  have hcollapse := updateOne_updateOne (fun x : MenuItem => x.id == item_id)
    (setAvailable (!m.available)) (setAvailable (!(setAvailable (!m.available) m).available))
    db.menu_items m hfind hp1 (setAvailable_setAvailable_self m)
  constructor
  · simp only [hcollapse]
  · simp [setAvailable]

theorem verify_otp_of_find_none (secret ADMIN : String) (db : DB) (code : String)
    (now : Nat) (h : db.otp_verifications.find? (fun o => o.email == ADMIN) = none) :
    verify_otp secret ADMIN db ADMIN code now =
      (db, .error ⟨404, "OTP not found or expired"⟩) := by
  simp [verify_otp, h]

/-! ### Claim theorems -/

/-- C5: for every email different from the configured administrator email
and every store state, both the OTP-request route and the OTP-verify route
fail with 403 "Email not authorized" (Forbidden) and return the store
exactly as it was: the guard is the first statement of both handlers, so
no stored challenge is read or modified. -/
theorem non_admin_always_forbidden (secret ADMIN email : String) (db : DB)
    (otp code : String) (now now' : Nat) (emailOk : Bool) (hne : email ≠ ADMIN) :
    send_otp ADMIN db email otp now emailOk =
      (db, .error ⟨403, "Email not authorized"⟩) ∧
    verify_otp secret ADMIN db email code now' =
      (db, .error ⟨403, "Email not authorized"⟩) := by
  constructor <;> simp [send_otp, verify_otp, hne]

/-- Witness for the C5 theorem: a concrete non-admin email against a
concrete store. -/
theorem non_admin_always_forbidden_witness :
    send_otp "admin@cafe.com" authDB "evil@x.com" "123456" 0 true =
      (authDB, .error ⟨403, "Email not authorized"⟩) ∧
    verify_otp "s" "admin@cafe.com" authDB "evil@x.com" "123456" 0 =
      (authDB, .error ⟨403, "Email not authorized"⟩) :=
  non_admin_always_forbidden "s" "admin@cafe.com" "evil@x.com" authDB "123456"
    "123456" 0 0 true (by decide)

/-- C2: a wrong code submitted against a live (not yet expired) challenge
for the administrator email fails with 400 "Invalid OTP" and leaves the
store exactly unchanged, so the correct code still succeeds afterwards on
the resulting store (within the expiry window). -/
theorem verify_otp_wrong_code_allows_retry (secret ADMIN : String) (db : DB)
    (c : OTPVerification) (submitted : String) (now : Nat)
    (hfind : db.otp_verifications.find? (fun o => o.email == ADMIN) = some c)
    (hlive : ¬ c.expires_at < now) (hwrong : c.otp ≠ submitted) :
    verify_otp secret ADMIN db ADMIN submitted now =
      (db, .error ⟨400, "Invalid OTP"⟩) ∧
    ∀ now', ¬ c.expires_at < now' →
      (verify_otp secret ADMIN (verify_otp secret ADMIN db ADMIN submitted now).1
        ADMIN c.otp now').2 = .ok (create_jwt_token secret ADMIN now', ADMIN) := by
  have h1 : verify_otp secret ADMIN db ADMIN submitted now =
      (db, .error ⟨400, "Invalid OTP"⟩) := by
    simp [verify_otp, hfind, hlive, hwrong]
  refine ⟨h1, ?_⟩
  intro now' hlive'
  rw [h1]
  simp [verify_otp, hfind, hlive']

/-- Witness for the C2 theorem: wrong code "000000" against the stored
"123456", then the correct code succeeds. -/
theorem verify_otp_wrong_code_allows_retry_witness :
    verify_otp "s" "admin@cafe.com" authDB "admin@cafe.com" "000000" 0 =
      (authDB, .error ⟨400, "Invalid OTP"⟩) ∧
    (verify_otp "s" "admin@cafe.com"
      (verify_otp "s" "admin@cafe.com" authDB "admin@cafe.com" "000000" 0).1
      "admin@cafe.com" "123456" 1).2 =
      .ok (create_jwt_token "s" "admin@cafe.com" 1, "admin@cafe.com") :=
  have h := verify_otp_wrong_code_allows_retry "s" "admin@cafe.com" authDB
    adminChallenge "000000" 0 (by decide) (by decide) (by decide)
  ⟨h.1, h.2 1 (by decide)⟩

/-- C3: assuming the store holds at most one challenge for the admin email
(the invariant the request route maintains), a successful verification
(matching code, not expired) consumes the challenge — afterwards no
challenge for that email remains and any later verify attempt fails with
404 "OTP not found or expired" — and a verification attempt against an
expired challenge deletes it and fails with 400 "OTP has expired", with
later attempts likewise getting 404. -/
theorem verify_otp_consumes_challenge (secret ADMIN : String) (db : DB)
    (c : OTPVerification) (now : Nat)
    (hfind : db.otp_verifications.find? (fun o => o.email == ADMIN) = some c)
    (hone : (db.otp_verifications.filter (fun o => o.email == ADMIN)).length ≤ 1) :
    (¬ c.expires_at < now →
      (verify_otp secret ADMIN db ADMIN c.otp now).2 =
        .ok (create_jwt_token secret ADMIN now, ADMIN) ∧
      ((verify_otp secret ADMIN db ADMIN c.otp now).1.otp_verifications.find?
        (fun o => o.email == ADMIN)) = none ∧
      ∀ code now', verify_otp secret ADMIN
          (verify_otp secret ADMIN db ADMIN c.otp now).1 ADMIN code now' =
        ((verify_otp secret ADMIN db ADMIN c.otp now).1,
         .error ⟨404, "OTP not found or expired"⟩)) ∧
    (c.expires_at < now →
      ∀ code, verify_otp secret ADMIN db ADMIN code now =
          ({ db with otp_verifications :=
              deleteOne (fun o => o.email == ADMIN) db.otp_verifications },
           .error ⟨400, "OTP has expired"⟩) ∧
        ((verify_otp secret ADMIN db ADMIN code now).1.otp_verifications.find?
          (fun o => o.email == ADMIN)) = none ∧
        ∀ code' now', verify_otp secret ADMIN
            (verify_otp secret ADMIN db ADMIN code now).1 ADMIN code' now' =
          ((verify_otp secret ADMIN db ADMIN code now).1,
           .error ⟨404, "OTP not found or expired"⟩)) := by
  have hdel : (deleteOne (fun o : OTPVerification => o.email == ADMIN)
      db.otp_verifications).find? (fun o => o.email == ADMIN) = none :=
    deleteOne_find?_none _ _ hone
  constructor
  · intro hlive
    have hrun : verify_otp secret ADMIN db ADMIN c.otp now =
        ({ db with otp_verifications :=
            deleteOne (fun o => o.email == ADMIN) db.otp_verifications },
         .ok (create_jwt_token secret ADMIN now, ADMIN)) := by
      simp [verify_otp, hfind, hlive]
    rw [hrun]
    exact ⟨rfl, hdel, fun code now' =>
      verify_otp_of_find_none secret ADMIN _ code now' hdel⟩
  · intro hexp code
    have hrun : verify_otp secret ADMIN db ADMIN code now =
        ({ db with otp_verifications :=
            deleteOne (fun o => o.email == ADMIN) db.otp_verifications },
         .error ⟨400, "OTP has expired"⟩) := by
      simp [verify_otp, hfind, hexp]
    rw [hrun]
    exact ⟨rfl, hdel, fun code' now' =>
      verify_otp_of_find_none secret ADMIN _ code' now' hdel⟩

/-- Witness for the C3 theorem: successful verification at time 0 consumes
the challenge (the next attempt gets 404), and verification at time 601
(past the 600-second expiry) fails with "OTP has expired". -/
theorem verify_otp_consumes_challenge_witness :
    (verify_otp "s" "admin@cafe.com" authDB "admin@cafe.com" "123456" 0).2 =
      .ok (create_jwt_token "s" "admin@cafe.com" 0, "admin@cafe.com") ∧
    (verify_otp "s" "admin@cafe.com"
      (verify_otp "s" "admin@cafe.com" authDB "admin@cafe.com" "123456" 0).1
      "admin@cafe.com" "123456" 1) =
      ((verify_otp "s" "admin@cafe.com" authDB "admin@cafe.com" "123456" 0).1,
       .error ⟨404, "OTP not found or expired"⟩) ∧
    verify_otp "s" "admin@cafe.com" authDB "admin@cafe.com" "123456" 601 =
      ({ authDB with otp_verifications := deleteOne (fun o => o.email == "admin@cafe.com") authDB.otp_verifications },
       .error ⟨400, "OTP has expired"⟩) :=
  have h := verify_otp_consumes_challenge "s" "admin@cafe.com" authDB
    adminChallenge 0 (by decide) (by decide)
  have h2 := verify_otp_consumes_challenge "s" "admin@cafe.com" authDB
    adminChallenge 601 (by decide) (by decide)
  ⟨(h.1 (by decide)).1, (h.1 (by decide)).2.2 "123456" 1, (h2.2 (by decide) "123456").1⟩

/-- C4: a successful OTP request first deletes every stored challenge for
the admin email and then inserts exactly one fresh challenge with
`created_at = now` and `expires_at = now + 600` seconds; a second
successful request again leaves exactly one challenge for that email — the
newest one. -/
theorem send_otp_single_challenge (ADMIN : String) (db : DB) (otp1 otp2 : String)
    (t1 t2 : Nat) :
    (send_otp ADMIN db ADMIN otp1 t1 true).2 = .ok "OTP sent successfully" ∧
    ((send_otp ADMIN db ADMIN otp1 t1 true).1.otp_verifications.filter
      (fun o => o.email == ADMIN)) =
      [{ email := ADMIN, otp := otp1, created_at := t1, expires_at := t1 + 10 * 60 }] ∧
    (send_otp ADMIN (send_otp ADMIN db ADMIN otp1 t1 true).1 ADMIN otp2 t2 true).2 =
      .ok "OTP sent successfully" ∧
    ((send_otp ADMIN (send_otp ADMIN db ADMIN otp1 t1 true).1
        ADMIN otp2 t2 true).1.otp_verifications.filter (fun o => o.email == ADMIN)) =
      [{ email := ADMIN, otp := otp2, created_at := t2, expires_at := t2 + 10 * 60 }] := by
  refine ⟨?_, ?_, ?_, ?_⟩ <;>
    simp [send_otp, deleteManyEmail, List.filter_append, filter_filter_not]

/-- C9: when the email dispatch fails, the OTP request fails with 500
"Failed to send OTP email" but the freshly inserted challenge stays in the
store (the insert is not rolled back), so a later verify with the generated
code inside the expiry window still succeeds. -/
theorem send_otp_failure_keeps_challenge (secret ADMIN : String) (db : DB)
    (otp : String) (now : Nat) :
    send_otp ADMIN db ADMIN otp now false =
      ({ db with otp_verifications :=
          deleteManyEmail ADMIN db.otp_verifications ++ [{ email := ADMIN, otp := otp, created_at := now, expires_at := now + 10 * 60 }] },
       .error ⟨500, "Failed to send OTP email"⟩) ∧
    ((send_otp ADMIN db ADMIN otp now false).1.otp_verifications.find?
      (fun o => o.email == ADMIN)) =
      some { email := ADMIN, otp := otp, created_at := now, expires_at := now + 10 * 60 } ∧
    ∀ now', ¬ now + 10 * 60 < now' →
      (verify_otp secret ADMIN (send_otp ADMIN db ADMIN otp now false).1
        ADMIN otp now').2 = .ok (create_jwt_token secret ADMIN now', ADMIN) := by
  have h1 : send_otp ADMIN db ADMIN otp now false =
      ({ db with otp_verifications :=
          deleteManyEmail ADMIN db.otp_verifications ++ [{ email := ADMIN, otp := otp, created_at := now, expires_at := now + 10 * 60 }] },
       .error ⟨500, "Failed to send OTP email"⟩) := by
    simp [send_otp]
  have hnone : (deleteManyEmail ADMIN db.otp_verifications).find?
      (fun o => o.email == ADMIN) = none :=
    find?_filter_not (fun o : OTPVerification => o.email == ADMIN) db.otp_verifications
  have hfind2 : ((deleteManyEmail ADMIN db.otp_verifications ++
      [({ email := ADMIN, otp := otp, created_at := now, expires_at := now + 10 * 60 } : OTPVerification)]).find?
      (fun o => o.email == ADMIN)) =
      some { email := ADMIN, otp := otp, created_at := now, expires_at := now + 10 * 60 } := by
    rw [find?_append_of_none _ _ _ hnone]
    simp
  refine ⟨h1, ?_, ?_⟩
  · rw [h1]
    exact hfind2
  · intro now' hlive
    have hlive' : ¬ now + 600 < now' := by simpa using hlive
    rw [h1]
    simp [verify_otp, hnone, hlive']

/-- Witness for the C9 theorem: a failed dispatch at time 0 leaves the 500
error, and the stored code "654321" still verifies at time 1. -/
theorem send_otp_failure_keeps_challenge_witness :
    (send_otp "admin@cafe.com" authDB "admin@cafe.com" "654321" 0 false).2 =
      .error ⟨500, "Failed to send OTP email"⟩ ∧
    (verify_otp "s" "admin@cafe.com"
      (send_otp "admin@cafe.com" authDB "admin@cafe.com" "654321" 0 false).1
      "admin@cafe.com" "654321" 1).2 =
      .ok (create_jwt_token "s" "admin@cafe.com" 1, "admin@cafe.com") :=
  have h := send_otp_failure_keeps_challenge "s" "admin@cafe.com" authDB "654321" 0
  ⟨by rw [h.1], h.2.2 1 (by decide)⟩

/-- C6: a token issued by `create_jwt_token` carries the email and an
expiry 7 days (604800 seconds) after issuance, and verifies back to the
original email before that expiry; a token whose signature does not verify
under the server secret fails with 401 "Invalid token"; a well-signed token
whose embedded expiry has passed fails with 401 "Token has expired". -/
theorem jwt_issue_verify (secret : String) :
    (∀ email now, (create_jwt_token secret email now).payload =
      { email := email, exp := now + 7 * 24 * 60 * 60 }) ∧
    (∀ email now t, ¬ now + 7 * 24 * 60 * 60 < t →
      verify_jwt_token secret (create_jwt_token secret email now) t = .ok email) ∧
    (∀ token t, token.sig ≠ signHS256 secret token.payload →
      verify_jwt_token secret token t = .error ⟨401, "Invalid token"⟩) ∧
    (∀ token t, token.sig = signHS256 secret token.payload → token.payload.exp < t →
      verify_jwt_token secret token t = .error ⟨401, "Token has expired"⟩) := by
  refine ⟨fun email now => rfl, ?_, ?_, ?_⟩
  · intro email now t h
    simp [verify_jwt_token, create_jwt_token, signHS256, h]
  · intro token t h
    simp [verify_jwt_token, h]
  · intro token t hsig hexp
    simp [verify_jwt_token, hsig, hexp]

/-- Witness for the C6 theorem: a round-trip at time 0, a wrong-secret
signature, and a token expired at time 4. -/
theorem jwt_issue_verify_witness :
    verify_jwt_token "s" (create_jwt_token "s" "admin@cafe.com" 0) 0 =
      .ok "admin@cafe.com" ∧
    verify_jwt_token "s" { payload := { email := "admin@cafe.com", exp := 604800 }, sig := signHS256 "x" { email := "admin@cafe.com", exp := 604800 } } 0 =
      .error ⟨401, "Invalid token"⟩ ∧
    verify_jwt_token "s" { payload := { email := "admin@cafe.com", exp := 3 }, sig := signHS256 "s" { email := "admin@cafe.com", exp := 3 } } 4 =
      .error ⟨401, "Token has expired"⟩ :=
  ⟨(jwt_issue_verify "s").2.1 "admin@cafe.com" 0 0 (by decide),
   (jwt_issue_verify "s").2.2.1 _ 0 (by decide),
   (jwt_issue_verify "s").2.2.2 _ 4 rfl (by decide)⟩

/-- C7: updating an unknown id fails with 404 "Menu item not found" and
leaves the store exactly as it was; updating a present id applies exactly
the non-`None` fields of the partial payload to the first matching item
(every other item is untouched, by the shape of `updateOne`), keeps every
omitted field — including `id` and `created_at`, which the payload cannot
carry — at its prior value, and returns the updated item. -/
theorem update_menu_item_spec (db : DB) (item_id : String) (u : MenuItemUpdate) :
    (db.menu_items.find? (fun x => x.id == item_id) = none →
      update_menu_item db item_id u = (db, .error ⟨404, "Menu item not found"⟩)) ∧
    ∀ m, db.menu_items.find? (fun x => x.id == item_id) = some m →
      update_menu_item db item_id u =
        ({ db with menu_items :=
            updateOne (fun x => x.id == item_id) (applyUpdate u) db.menu_items },
         .ok (applyUpdate u m)) ∧
      applyUpdate u m =
        { id := m.id, category := u.category.getD m.category, name := u.name.getD m.name, price := u.price.getD m.price, description := u.description.getD m.description, is_special := u.is_special.getD m.is_special, available := u.available.getD m.available, image_url := u.image_url.getD m.image_url, created_at := m.created_at } := by
  refine ⟨?_, ?_⟩
  · intro hnone
    simp [update_menu_item, hnone]
  · intro m hfind
    exact ⟨update_menu_item_found db item_id u m hfind, rfl⟩

/-- Witness for the C7 theorem: an unknown id and a price-only partial
update of the single stored item. -/
theorem update_menu_item_spec_witness :
    update_menu_item menuDB "zzz" { price := some 60 } =
      (menuDB, .error ⟨404, "Menu item not found"⟩) ∧
    update_menu_item menuDB "i1" { price := some 60 } =
      ({ menuDB with menu_items := updateOne (fun x => x.id == "i1") (applyUpdate { price := some 60 }) menuDB.menu_items },
       .ok (applyUpdate { price := some 60 } sweetLassi)) :=
  ⟨(update_menu_item_spec menuDB "zzz" { price := some 60 }).1 rfl,
   ((update_menu_item_spec menuDB "i1" { price := some 60 }).2 sweetLassi rfl).1⟩

/-- C8: on a stored item, toggle-special replaces the first matching item
by the same item with only `is_special` negated (other items untouched, by
the shape of `updateOne`) and returns the new value; applying it twice
restores the store exactly and reports the original value; likewise
toggle-available for `available`; both fail with 404 "Menu item not found"
on an unknown id, leaving the store unchanged. -/
theorem toggles_flip_and_self_inverse (db : DB) (item_id : String) :
    (db.menu_items.find? (fun x => x.id == item_id) = none →
      toggle_special db item_id = (db, .error ⟨404, "Menu item not found"⟩) ∧
      toggle_available db item_id = (db, .error ⟨404, "Menu item not found"⟩)) ∧
    ∀ m, db.menu_items.find? (fun x => x.id == item_id) = some m →
      (toggle_special db item_id =
        ({ db with menu_items :=
            updateOne (fun x => x.id == item_id) (setSpecial (!m.is_special)) db.menu_items },
         .ok (!m.is_special)) ∧
       ((toggle_special db item_id).1.menu_items.find? (fun x => x.id == item_id)) =
         some (setSpecial (!m.is_special) m) ∧
       (toggle_special (toggle_special db item_id).1 item_id).1 = db ∧
       (toggle_special (toggle_special db item_id).1 item_id).2 = .ok m.is_special) ∧
      (toggle_available db item_id =
        ({ db with menu_items :=
            updateOne (fun x => x.id == item_id) (setAvailable (!m.available)) db.menu_items },
         .ok (!m.available)) ∧
       ((toggle_available db item_id).1.menu_items.find? (fun x => x.id == item_id)) =
         some (setAvailable (!m.available) m) ∧
       (toggle_available (toggle_available db item_id).1 item_id).1 = db ∧
       (toggle_available (toggle_available db item_id).1 item_id).2 = .ok m.available) := by
  refine ⟨?_, ?_⟩
  · intro hnone
    constructor <;> simp [toggle_special, toggle_available, hnone]
  · intro m hfind
    have hpm := List.find?_some hfind
    have hps : (setSpecial (!m.is_special) m).id == item_id := hpm
    have hfs := find?_updateOne (fun x : MenuItem => x.id == item_id)
      (setSpecial (!m.is_special)) db.menu_items m hfind hps
    have hpa : (setAvailable (!m.available) m).id == item_id := hpm
    have hfa := find?_updateOne (fun x : MenuItem => x.id == item_id)
      (setAvailable (!m.available)) db.menu_items m hfind hpa
    refine ⟨⟨toggle_special_found db item_id m hfind, ?_,
        (toggle_special_twice db item_id m hfind).1,
        (toggle_special_twice db item_id m hfind).2⟩,
      ⟨toggle_available_found db item_id m hfind, ?_,
        (toggle_available_twice db item_id m hfind).1,
        (toggle_available_twice db item_id m hfind).2⟩⟩
    · rw [toggle_special_found db item_id m hfind]
      exact hfs
    · rw [toggle_available_found db item_id m hfind]
      exact hfa

/-- Witness for the C8 theorem: 404 on an unknown id, and both toggles on
the stored item, each applied twice, restore the store. -/
theorem toggles_flip_and_self_inverse_witness :
    toggle_special menuDB "zzz" = (menuDB, .error ⟨404, "Menu item not found"⟩) ∧
    toggle_special menuDB "i1" =
      ({ menuDB with menu_items := updateOne (fun x => x.id == "i1") (setSpecial (!sweetLassi.is_special)) menuDB.menu_items },
       .ok (!sweetLassi.is_special)) ∧
    (toggle_special (toggle_special menuDB "i1").1 "i1").1 = menuDB ∧
    (toggle_available (toggle_available menuDB "i1").1 "i1").1 = menuDB :=
  have hnone := (toggles_flip_and_self_inverse menuDB "zzz").1 rfl
  have hsome := (toggles_flip_and_self_inverse menuDB "i1").2 sweetLassi rfl
  ⟨hnone.1, hsome.1.1, hsome.1.2.2.1, hsome.2.2.2.1⟩

/-- C10: every list route truncates its result to the first 1000 matching
documents (`.to_list(1000)`), so each returns at most 1000 items, and when
the catalog holds more than 1000 items the admin list-all route returns
exactly 1000 of them — strictly fewer than the catalog holds. -/
theorem list_routes_capped (db : DB) :
    (get_menu db).length ≤ 1000 ∧
    (get_specials db).length ≤ 1000 ∧
    (get_all_menu_items db).length ≤ 1000 ∧
    get_menu db = (db.menu_items.filter (fun m => m.available)).take 1000 ∧
    get_specials db = (db.menu_items.filter (fun m => m.is_special && m.available)).take 1000 ∧
    get_all_menu_items db = db.menu_items.take 1000 ∧
    (1000 < db.menu_items.length →
      (get_all_menu_items db).length = 1000 ∧
      (get_all_menu_items db).length < db.menu_items.length) := by
  refine ⟨?_, ?_, ?_, rfl, rfl, rfl, ?_⟩
  · simp only [get_menu, List.length_take]
    omega
  · simp only [get_specials, List.length_take]
    omega
  · simp only [get_all_menu_items, List.length_take]
    omega
  · intro h
    simp only [get_all_menu_items, List.length_take]
    omega

/-- Witness for the C10 theorem: a 1001-item catalog, of which list-all
returns exactly 1000. -/
theorem list_routes_capped_witness :
    1000 < bigDB.menu_items.length ∧
    (get_all_menu_items bigDB).length = 1000 ∧
    (get_all_menu_items bigDB).length < bigDB.menu_items.length :=
  have h : 1000 < bigDB.menu_items.length := by
    simp only [bigDB, List.length_replicate]
    omega
  ⟨h, (list_routes_capped bigDB).2.2.2.2.2.2 h⟩

/-- C1 is false on the code: `create_menu_item` (server.py lines 254-264)
performs no value validation — the pydantic models check types only — so a
create input with empty `name`, empty `category` and a negative `price`
succeeds (no ValidationError) and persists the item, and likewise
`update_menu_item` accepts an empty `name` and a negative `price` for a
stored item. -/
theorem create_accepts_invalid_input :
    (create_menu_item { menu_items := [], otp_verifications := [] } { category := "", name := "", price := -5 } "i9" 7).2 =
      .ok { id := "i9", category := "", name := "", price := -5, description := "", is_special := false, available := true, image_url := "", created_at := 7 } ∧
    (create_menu_item { menu_items := [], otp_verifications := [] } { category := "", name := "", price := -5 } "i9" 7).1.menu_items =
      [{ id := "i9", category := "", name := "", price := -5, description := "", is_special := false, available := true, image_url := "", created_at := 7 }] ∧
    (update_menu_item menuDB "i1" { name := some "", price := some (-7) }).2 =
      .ok { id := "i1", category := "Lassi", name := "", price := -7, description := "Refreshing sweet lassi made from curd and sugar", is_special := false, available := true, image_url := "", created_at := 0 } := by
  refine ⟨rfl, rfl, ?_⟩
  rfl

/-- C1 (amended): the create and update handlers perform no value
validation at all — every create input, including one with empty name,
empty category, or negative price, succeeds and appends the item to the
store, and every partial update of a stored item, including one setting a
negative price or an empty name/category, succeeds and applies exactly the
supplied fields. -/
theorem create_update_no_validation (db : DB) (input : MenuItemCreate) (newId : String)
    (now : Nat) (item_id : String) (u : MenuItemUpdate) :
    create_menu_item db input newId now =
      ({ db with menu_items := db.menu_items ++ [{ id := newId, category := input.category, name := input.name, price := input.price, description := input.description, is_special := input.is_special, available := input.available, image_url := input.image_url, created_at := now }] },
       .ok { id := newId, category := input.category, name := input.name, price := input.price, description := input.description, is_special := input.is_special, available := input.available, image_url := input.image_url, created_at := now }) ∧
    ∀ m, db.menu_items.find? (fun x => x.id == item_id) = some m →
      (update_menu_item db item_id u).2 = .ok (applyUpdate u m) := by
  refine ⟨rfl, ?_⟩
  intro m hfind
  rw [update_menu_item_found db item_id u m hfind]

/-- Witness for the amended C1 theorem: a create with empty name/category
and price -5, and an update setting the stored item's name to "". -/
theorem create_update_no_validation_witness :
    (create_menu_item menuDB { category := "", name := "", price := -5 } "i9" 7).2 =
      .ok { id := "i9", category := "", name := "", price := -5, description := "", is_special := false, available := true, image_url := "", created_at := 7 } ∧
    (update_menu_item menuDB "i1" { name := some "" }).2 =
      .ok (applyUpdate { name := some "" } sweetLassi) :=
  have h := create_update_no_validation menuDB { category := "", name := "", price := -5 }
    "i9" 7 "i1" { name := some "" }
  ⟨by rw [h.1], h.2 sweetLassi rfl⟩

end CafeMenu
